import Mathlib

/-
Shallow embedding of src/contracts/solana/lib.rs (program crosschain_bank5_optimized).

Modelling conventions:
- Machine integers (u8/u16/u64/u128) are Nat with explicit checked arithmetic
  (checked_add /checked_sub return none exactly when the Rust checked op does).
- i64 timestamps are Int.
- Pubkey is Nat; Pubkey::default() is 0 and system_program::ID is the constant 1.
- The keccak hashes generate_user_salt / generate_vault_key are modelled as
  injective tupling (the only property the ledger logic uses is equality of keys,
  and the hash is collision-resistant).
- Anchor account mutation semantics: an instruction handler is a function
  State -> Except BankError State.  When the handler returns an error the Solana
  transaction aborts and NO account mutation is persisted; the committed state is
  the prior state.  The commit functions below make this explicit.
- Cross-program invocations (SPL token transfers), lamport moves and account
  plumbing (PDA derivation, signer checks on accounts that exist by construction)
  move value outside the ledger records and are not part of the record state; the
  lamport-balance preconditions they check are passed in as explicit parameters
  where the handler branches on them.
- The Pyth oracle call get_pyth_price is modelled by passing the quote
  (price, expo) into the handler and replicating the price > 0 / expo < 0 gates
  it performs (the staleness and confidence gates concern only the oracle port).
-/

deriving instance DecidableEq for Except

def U64_MAX : Nat := 18446744073709551615

def U8_MAX : Nat := 255

def U16_MAX : Nat := 65535

/-- Rust u64 checked_add. -/
def checked_add_u64 (a b : Nat) : Option Nat :=
  if a + b ≤ U64_MAX then some (a + b) else none

/-- Rust u8 checked_add. -/
def checked_add_u8 (a b : Nat) : Option Nat :=
  if a + b ≤ U8_MAX then some (a + b) else none

/-- Rust u16 checked_add. -/
def checked_add_u16 (a b : Nat) : Option Nat :=
  if a + b ≤ U16_MAX then some (a + b) else none

/-- Rust unsigned checked_sub (same for every width). -/
def checked_sub_nat (a b : Nat) : Option Nat :=
  if b ≤ a then some (a - b) else none

abbrev Pubkey := Nat

/-- Pubkey::default(), used by the SOL paths as the token id. -/
def SOL_TOKEN : Pubkey := 0

/-- system_program::ID, used by the time-locked vault to tag SOL. -/
def SYSTEM_PROGRAM_ID : Pubkey := 1

/-- Result of generate_user_salt = keccak(bank_salt, user), modelled injectively. -/
abbrev UserSalt := Nat × Pubkey

/-- Result of generate_vault_key = keccak(user, token, salt), modelled injectively. -/
abbrev VKey := Pubkey × Pubkey × UserSalt

/-- The zero key a freshly initialized (zeroed) account slot holds. -/
def zeroVKey : VKey := (0, 0, (0, 0))

def generate_user_salt (bank_salt : Nat) (user : Pubkey) : UserSalt :=
  (bank_salt, user)

def generate_vault_key (user : Pubkey) (token : Pubkey) (salt : UserSalt) : VKey :=
  (user, token, salt)

/-- BankError, embedded verbatim from the source error enum. -/
inductive BankError where
  | BankNotInitialized
  | StarterVaultFull
  | TooManyBalances
  | TokenListFull
  | InsufficientBalance
  | ZeroDeposit
  | AmountMustExceedFee
  | InvalidRecipient
  | NotAuthorized
  | NoFees
  | InvalidPrice
  | AllExpansionsCreated
  | PreviousVaultNotFull
  | InvalidPhase
  | NoAvailableSlots
  | Overflow
  | RateLimitExceeded
  | InvalidVersion
  | Reentrancy
  | InvalidInput
  | ZeroWithdrawal
  | ZeroTransfer
deriving DecidableEq, Repr

/-- The fields of the Bank singleton the embedded handlers read. -/
structure Bank where
  fee_collector : Pubkey
  salt : Nat
  version : Nat
deriving DecidableEq, Repr

/-- UserVault account.  The source's five parallel fixed arrays are Lists of
length 5 (every handler scans exactly indices 0..4 and updates via set, which
preserves length). -/
structure UserVault where
  balance_keys : List VKey
  balance_values : List Nat
  balance_count : Nat
  balance_used : List Bool
  user_tokens : List Pubkey
  token_count : Nat
  token_used : List Bool
  expansion_vault_1 : Option Pubkey
  expansion_vault_2 : Option Pubkey
  expansion_vault_3 : Option Pubkey
  expansion_vault_4 : Option Pubkey
  total_capacity : Nat
  current_phase : Nat
  transaction_count_second : Nat
  transaction_count_minute : Nat
  last_transaction_second : Int
  last_transaction_minute : Int
  version : Nat
deriving DecidableEq, Repr

structure FeeVault where
  total_fees : Nat
  last_collection : Int
  version : Nat
deriving DecidableEq, Repr

structure ExpansionVault where
  balance_keys : List VKey
  balance_values : List Nat
  balance_count : Nat
  balance_used : List Bool
  user_tokens : List Pubkey
  token_count : Nat
  token_used : List Bool
  parent_vault : Pubkey
  user_owner : Pubkey
  vault_phase : Nat
  version : Nat
deriving DecidableEq, Repr

structure TimeLockedVault where
  version : Nat
  owner : Pubkey
  recipient : Pubkey
  unlock_timestamp : Int
  created_timestamp : Int
  token : Pubkey
  amount : Nat
  claimed : Bool
  description : String
deriving DecidableEq, Repr

/-- A freshly created (Anchor init, zeroed) UserVault. -/
def emptyUserVault : UserVault where
  balance_keys := List.replicate 5 zeroVKey
  balance_values := List.replicate 5 0
  balance_count := 0
  balance_used := List.replicate 5 false
  user_tokens := List.replicate 5 0
  token_count := 0
  token_used := List.replicate 5 false
  expansion_vault_1 := none
  expansion_vault_2 := none
  expansion_vault_3 := none
  expansion_vault_4 := none
  total_capacity := 0
  current_phase := 0
  transaction_count_second := 0
  transaction_count_minute := 0
  last_transaction_second := 0
  last_transaction_minute := 0
  version := 0

/-- A freshly created (Anchor init, zeroed) ExpansionVault, before field setup. -/
def emptyExpansionVault : ExpansionVault where
  balance_keys := List.replicate 5 zeroVKey
  balance_values := List.replicate 5 0
  balance_count := 0
  balance_used := List.replicate 5 false
  user_tokens := List.replicate 5 0
  token_count := 0
  token_used := List.replicate 5 false
  parent_vault := 0
  user_owner := 0
  vault_phase := 0
  version := 0

/-- First index i in 0..4 with balance_keys[i] == key && balance_used[i]
(the find loop every handler runs). -/
def find_balance_idx (keys : List VKey) (used : List Bool) (key : VKey) : Option Nat :=
  (List.range 5).find? (fun i => decide (keys.getD i zeroVKey = key) && used.getD i false)

/-- First index i in 0..4 with !balance_used[i] (the free-slot scan). -/
def first_free_idx (used : List Bool) : Option Nat :=
  (List.range 5).find? (fun i => !(used.getD i false))

/-- The balance a handler reads for a key (0 when no used slot matches). -/
def balanceOf (uv : UserVault) (key : VKey) : Nat :=
  match find_balance_idx uv.balance_keys uv.balance_used key with
  | some i => uv.balance_values.getD i 0
  | none => 0

/-- The inlined credit block every deposit / recipient-credit path repeats:
find the slot for key and checked_add amount, else (require balance_count < 5)
allocate the first free slot with value amount and checked_add balance_count. -/
def credit_vault (uv : UserVault) (key : VKey) (amount : Nat) : Except BankError UserVault :=
  match find_balance_idx uv.balance_keys uv.balance_used key with
  | some i =>
    match checked_add_u64 (uv.balance_values.getD i 0) amount with
    | some v => .ok { uv with balance_values := uv.balance_values.set i v }
    | none => .error .Overflow
  | none =>
    if uv.balance_count < 5 then
      match first_free_idx uv.balance_used with
      | some i =>
        match checked_add_u8 uv.balance_count 1 with
        | some c =>
          .ok { uv with
                balance_keys := uv.balance_keys.set i key,
                balance_values := uv.balance_values.set i amount,
                balance_used := uv.balance_used.set i true,
                balance_count := c }
        | none => .error .Overflow
      | none => .error .NoAvailableSlots
    else .error .TooManyBalances

/-- First index j in 0..4 with user_tokens[j] == token && token_used[j]
(the untrack scan in the zero-balance cleanup blocks). -/
def find_token_idx (tokens : List Pubkey) (used : List Bool) (token : Pubkey) : Option Nat :=
  (List.range 5).find? (fun j => decide (tokens.getD j 0 = token) && used.getD j false)

/-- track_token from the source: return Ok if the token is already tracked,
else require token_count < 5 (TokenListFull), take the first free tracking slot
and checked_add token_count, else NoAvailableSlots. -/
def track_token (uv : UserVault) (token : Pubkey) : Except BankError UserVault :=
  match find_token_idx uv.user_tokens uv.token_used token with
  | some _ => .ok uv
  | none =>
    if uv.token_count < 5 then
      match first_free_idx uv.token_used with
      | some i =>
        match checked_add_u8 uv.token_count 1 with
        | some c =>
          .ok { uv with
                user_tokens := uv.user_tokens.set i token,
                token_used := uv.token_used.set i true,
                token_count := c }
        | none => .error .Overflow
      | none => .error .NoAvailableSlots
    else .error .TokenListFull

/-- The untrack loop used by withdraw_sol / withdraw_token /
transfer_internal_sol / transfer_internal_token: clears token_used for the
token's tracking slot WITHOUT decrementing token_count. -/
def untrack_token_no_dec (uv : UserVault) (token : Pubkey) : UserVault :=
  match find_token_idx uv.user_tokens uv.token_used token with
  | some j => { uv with token_used := uv.token_used.set j false }
  | none => uv

/-- The untrack loop used by transfer_multiple_tokens_internal /
withdraw_multiple_tokens: clears token_used AND checked_subs token_count. -/
def untrack_token_dec (uv : UserVault) (token : Pubkey) : Except BankError UserVault :=
  match find_token_idx uv.user_tokens uv.token_used token with
  | some j =>
    match checked_sub_nat uv.token_count 1 with
    | some c => .ok { uv with token_used := uv.token_used.set j false, token_count := c }
    | none => .error .Overflow
  | none => .ok uv

/-- The debit block every withdrawal / sender-side transfer path repeats:
find the slot for key (balance 0, index None when absent), require
balance >= amount (InsufficientBalance), then checked_sub at the found index.
Returns the vault and the found index for the later zero-balance cleanup. -/
def debit_vault (uv : UserVault) (key : VKey) (amount : Nat) :
    Except BankError (UserVault × Option Nat) :=
  let idx := find_balance_idx uv.balance_keys uv.balance_used key
  let bal := match idx with
             | some i => uv.balance_values.getD i 0
             | none => 0
  if bal < amount then .error .InsufficientBalance
  else
    match idx with
    | none => .ok (uv, none)
    | some i =>
      match checked_sub_nat (uv.balance_values.getD i 0) amount with
      | some v => .ok ({ uv with balance_values := uv.balance_values.set i v }, some i)
      | none => .error .Overflow

/-- Zero-balance cleanup WITHOUT token_count decrement (withdraw_sol,
withdraw_token, transfer_internal_sol, transfer_internal_token): if the debited
slot reached 0, free it and untrack the token. -/
def cleanup_zero (uv : UserVault) (token : Pubkey) (idx : Option Nat) : UserVault :=
  match idx with
  | some i =>
    if uv.balance_values.getD i 0 = 0 then
      untrack_token_no_dec { uv with balance_used := uv.balance_used.set i false } token
    else uv
  | none => uv

/-- Zero-balance cleanup WITH token_count decrement
(transfer_multiple_tokens_internal, withdraw_multiple_tokens). -/
def cleanup_zero_dec (uv : UserVault) (token : Pubkey) (idx : Option Nat) :
    Except BankError UserVault :=
  match idx with
  | some i =>
    if uv.balance_values.getD i 0 = 0 then
      untrack_token_dec { uv with balance_used := uv.balance_used.set i false } token
    else .ok uv
  | none => .ok uv

/-- check_and_update_anti_spam from the source. -/
def check_and_update_anti_spam (now : Int) (uv : UserVault) : Except BankError UserVault :=
  let uv1 := if now - uv.last_transaction_second ≥ 1 then
               { uv with transaction_count_second := 0, last_transaction_second := now }
             else uv
  if uv1.transaction_count_second < 100 then
    let uv2 := if now - uv1.last_transaction_minute ≥ 60 then
                 { uv1 with transaction_count_minute := 0, last_transaction_minute := now }
               else uv1
    if uv2.transaction_count_minute < 1000 then
      match checked_add_u8 uv2.transaction_count_second 1,
            checked_add_u16 uv2.transaction_count_minute 1 with
      | some s, some m =>
        .ok { uv2 with transaction_count_second := s, transaction_count_minute := m }
      | _, _ => .error .Overflow
    else .error .RateLimitExceeded
  else .error .RateLimitExceeded

/-- calculate_usd_based_fee from the source:
fee = (10^8 * 10^|expo|) / price over u128, Overflow if the quotient does not
fit u64.  Modelled from the spec: the source multiplies in u128 and the build
profile governing u128 overflow behaviour (the workspace Cargo.toml) is not in
src/; the spec prescribes "at least 128-bit intermediate precision to avoid
overflow", so the intermediates are modelled as exact (they fit u128 whenever
|expo| <= 30). -/
def calculate_usd_based_fee (price : Int) (expo : Int) : Except BankError Nat :=
  if price ≤ 0 ∨ 0 ≤ expo then .error .InvalidPrice
  else
    let numerator : Nat := 10 ^ 8 * 10 ^ expo.natAbs
    let q : Nat := numerator / price.toNat
    if q ≤ U64_MAX then .ok q else .error .Overflow

/-- The price gates of get_pyth_price that bear on the quote itself
(price > 0 and expo < 0; staleness and confidence live in the oracle port). -/
def pyth_price_gate (price : Int) (expo : Int) : Except BankError Unit :=
  if 0 < price ∧ expo < 0 then .ok () else .error .InvalidPrice

/-- deposit_sol.  The source order: bank version gate, amount > 0, oracle quote,
fee, amount > fee, set vault versions, anti-spam, credit amount - fee under the
SOL key, track the SOL token, add fee into the fee vault. -/
def deposit_sol (bank : Bank) (user : Pubkey) (now price expo : Int) (amount : Nat)
    (uv : UserVault) (fv : FeeVault) : Except BankError (UserVault × FeeVault) :=
  if bank.version ≠ 1 then .error .InvalidVersion
  else if amount = 0 then .error .ZeroDeposit
  else
    match pyth_price_gate price expo with
    | .error e => .error e
    | .ok _ =>
      match calculate_usd_based_fee price expo with
      | .error e => .error e
      | .ok fee =>
        if ¬ fee < amount then .error .AmountMustExceedFee
        else
          let uv := { uv with version := 1 }
          let fv := { fv with version := 1 }
          match check_and_update_anti_spam now uv with
          | .error e => .error e
          | .ok uv =>
            let key := generate_vault_key user SOL_TOKEN (generate_user_salt bank.salt user)
            match credit_vault uv key (amount - fee) with
            | .error e => .error e
            | .ok uv =>
              match track_token uv SOL_TOKEN with
              | .error e => .error e
              | .ok uv =>
                match checked_add_u64 fv.total_fees fee with
                | none => .error .Overflow
                | some tf => .ok (uv, { fv with total_fees := tf, last_collection := now })

/-- withdraw_sol: bank and vault version gates, anti-spam, debit under the SOL
key, zero-balance cleanup without token_count decrement. -/
def withdraw_sol (bank : Bank) (user : Pubkey) (now : Int) (amount : Nat)
    (uv : UserVault) : Except BankError UserVault :=
  if bank.version ≠ 1 then .error .InvalidVersion
  else if uv.version ≠ 1 then .error .InvalidVersion
  else
    match check_and_update_anti_spam now uv with
    | .error e => .error e
    | .ok uv =>
      let key := generate_vault_key user SOL_TOKEN (generate_user_salt bank.salt user)
      match debit_vault uv key amount with
      | .error e => .error e
      | .ok (uv, idx) => .ok (cleanup_zero uv SOL_TOKEN idx)

/-- transfer_internal_sol.  The recipient account is the vault of `dst` (the
source separately requires dst == recipient.key(), true by construction here).
Source order: version gates, recipient vault version init, self-transfer
rejection, anti-spam on the sender, sender debit, recipient credit and
track_token, sender zero-balance cleanup without token_count decrement. -/
def transfer_internal_sol (bank : Bank) (user dst : Pubkey) (now : Int) (amount : Nat)
    (uv rv : UserVault) : Except BankError (UserVault × UserVault) :=
  if bank.version ≠ 1 then .error .InvalidVersion
  else if uv.version ≠ 1 then .error .InvalidVersion
  else
    let rv := if rv.version = 0 then { rv with version := 1 } else rv
    if dst = user then .error .InvalidRecipient
    else
      match check_and_update_anti_spam now uv with
      | .error e => .error e
      | .ok uv =>
        let from_key := generate_vault_key user SOL_TOKEN (generate_user_salt bank.salt user)
        match debit_vault uv from_key amount with
        | .error e => .error e
        | .ok (uv, idx) =>
          let to_key := generate_vault_key dst SOL_TOKEN (generate_user_salt bank.salt dst)
          match credit_vault rv to_key amount with
          | .error e => .error e
          | .ok rv =>
            match track_token rv SOL_TOKEN with
            | .error e => .error e
            | .ok rv => .ok (cleanup_zero uv SOL_TOKEN idx, rv)

/-- deposit_token.  Note what the source does NOT do here: no anti-spam call,
no fee deduction and no fee-vault account at all — after requiring
amount > fee it credits the FULL amount (the SPL transfer itself is a CPI,
outside the record state). -/
def deposit_token (bank : Bank) (user : Pubkey) (token : Pubkey) (price expo : Int)
    (amount : Nat) (uv : UserVault) : Except BankError UserVault :=
  if bank.version ≠ 1 then .error .InvalidVersion
  else if amount = 0 then .error .ZeroDeposit
  else
    match pyth_price_gate price expo with
    | .error e => .error e
    | .ok _ =>
      match calculate_usd_based_fee price expo with
      | .error e => .error e
      | .ok fee =>
        if ¬ fee < amount then .error .AmountMustExceedFee
        else
          let uv := { uv with version := 1 }
          let key := generate_vault_key user token (generate_user_salt bank.salt user)
          match credit_vault uv key amount with
          | .error e => .error e
          | .ok uv => track_token uv token

/-- withdraw_token.  Note: no anti-spam call in the source.  Debit under the
token key, zero-balance cleanup without token_count decrement (the SPL
transfer back to the user is a CPI, outside the record state). -/
def withdraw_token (bank : Bank) (user : Pubkey) (token : Pubkey) (amount : Nat)
    (uv : UserVault) : Except BankError UserVault :=
  if bank.version ≠ 1 then .error .InvalidVersion
  else if uv.version ≠ 1 then .error .InvalidVersion
  else
    let key := generate_vault_key user token (generate_user_salt bank.salt user)
    match debit_vault uv key amount with
    | .error e => .error e
    | .ok (uv, idx) => .ok (cleanup_zero uv token idx)

/-- transfer_internal_token: like transfer_internal_sol with the mint key as
token (anti-spam present). -/
def transfer_internal_token (bank : Bank) (user dst : Pubkey) (token : Pubkey)
    (now : Int) (amount : Nat) (uv rv : UserVault) :
    Except BankError (UserVault × UserVault) :=
  if bank.version ≠ 1 then .error .InvalidVersion
  else if uv.version ≠ 1 then .error .InvalidVersion
  else
    let rv := if rv.version = 0 then { rv with version := 1 } else rv
    if dst = user then .error .InvalidRecipient
    else
      match check_and_update_anti_spam now uv with
      | .error e => .error e
      | .ok uv =>
        let from_key := generate_vault_key user token (generate_user_salt bank.salt user)
        match debit_vault uv from_key amount with
        | .error e => .error e
        | .ok (uv, idx) =>
          let to_key := generate_vault_key dst token (generate_user_salt bank.salt dst)
          match credit_vault rv to_key amount with
          | .error e => .error e
          | .ok rv =>
            match track_token rv token with
            | .error e => .error e
            | .ok rv => .ok (cleanup_zero uv token idx, rv)

/-- One entry of the transfer_multiple_tokens_internal loop body (the part
under `if let Some(mint)`): sender debit with inline zero-balance cleanup WITH
token_count decrement, then recipient credit and track_token. -/
def multi_transfer_entry (bank : Bank) (user dst : Pubkey) (amount : Nat)
    (token : Pubkey) (uv rv : UserVault) : Except BankError (UserVault × UserVault) :=
  let sender_key := generate_vault_key user token (generate_user_salt bank.salt user)
  match debit_vault uv sender_key amount with
  | .error e => .error e
  | .ok (uv, idx) =>
    match cleanup_zero_dec uv token idx with
    | .error e => .error e
    | .ok uv =>
      let to_key := generate_vault_key dst token (generate_user_salt bank.salt dst)
      match credit_vault rv to_key amount with
      | .error e => .error e
      | .ok rv =>
        match track_token rv token with
        | .error e => .error e
        | .ok rv => .ok (uv, rv)

/-- The loop of transfer_multiple_tokens_internal over (amount, mint account)
pairs: amount > 0 is required before the mint lookup; a missing mint account is
silently skipped. -/
def multi_transfer_loop (bank : Bank) (user dst : Pubkey)
    (entries : List (Nat × Option Pubkey)) (uv rv : UserVault) :
    Except BankError (UserVault × UserVault) :=
  match entries with
  | [] => .ok (uv, rv)
  | (amount, mint) :: rest =>
    if amount = 0 then .error .ZeroTransfer
    else
      match mint with
      | none => multi_transfer_loop bank user dst rest uv rv
      | some token =>
        match multi_transfer_entry bank user dst amount token uv rv with
        | .error e => .error e
        | .ok (uv, rv) => multi_transfer_loop bank user dst rest uv rv

/-- Pair each amount with the mint account the source selects for its index
(token_mint_1 .. token_mint_5; indices past the provided accounts read None). -/
def entries_of (amounts : List Nat) (mints : List (Option Pubkey)) :
    List (Nat × Option Pubkey) :=
  amounts.enum.map (fun p => (p.2, (mints.get? p.1).bind id))

/-- transfer_multiple_tokens_internal: version gates, 1..5 batch size, self
transfer rejection, recipient vault version init, anti-spam on the sender, then
the per-entry loop. -/
def transfer_multiple_tokens_internal (bank : Bank) (user dst : Pubkey) (now : Int)
    (amounts : List Nat) (mints : List (Option Pubkey)) (uv rv : UserVault) :
    Except BankError (UserVault × UserVault) :=
  if bank.version ≠ 1 then .error .InvalidVersion
  else if uv.version ≠ 1 then .error .InvalidVersion
  else if ¬ (0 < amounts.length ∧ amounts.length ≤ 5) then .error .InvalidInput
  else if user = dst then .error .InvalidRecipient
  else
    let rv := if rv.version = 0 then { rv with version := 1 } else rv
    match check_and_update_anti_spam now uv with
    | .error e => .error e
    | .ok uv => multi_transfer_loop bank user dst (entries_of amounts mints) uv rv

/-- One entry of the deposit_multiple_tokens loop: amount > 0 and amount > fee
are required before the mint lookup (a missing mint account is skipped); a
present mint is credited with the FULL amount (no fee deduction, no fee vault —
as in deposit_token). -/
def multi_deposit_entry (bank : Bank) (user : Pubkey) (price expo : Int)
    (amount : Nat) (mint : Option Pubkey) (uv : UserVault) :
    Except BankError UserVault :=
  if amount = 0 then .error .ZeroDeposit
  else
    match calculate_usd_based_fee price expo with
    | .error e => .error e
    | .ok fee =>
      if ¬ fee < amount then .error .AmountMustExceedFee
      else
        match mint with
        | none => .ok uv
        | some token =>
          let key := generate_vault_key user token (generate_user_salt bank.salt user)
          match credit_vault uv key amount with
          | .error e => .error e
          | .ok uv => track_token uv token

/-- The loop of deposit_multiple_tokens over (amount, mint account) pairs. -/
def multi_deposit_loop (bank : Bank) (user : Pubkey) (price expo : Int) :
    List (Nat × Option Pubkey) → UserVault → Except BankError UserVault
  | [], uv => .ok uv
  | (amount, mint) :: rest, uv =>
    match multi_deposit_entry bank user price expo amount mint uv with
    | .error e => .error e
    | .ok uv => multi_deposit_loop bank user price expo rest uv

/-- deposit_multiple_tokens: no anti-spam call in the source. -/
def deposit_multiple_tokens (bank : Bank) (user : Pubkey) (price expo : Int)
    (amounts : List Nat) (mints : List (Option Pubkey)) (uv : UserVault) :
    Except BankError UserVault :=
  if bank.version ≠ 1 then .error .InvalidVersion
  else if ¬ (0 < amounts.length ∧ amounts.length ≤ 5) then .error .InvalidInput
  else
    match pyth_price_gate price expo with
    | .error e => .error e
    | .ok _ =>
      let uv := { uv with version := 1 }
      multi_deposit_loop bank user price expo (entries_of amounts mints) uv

/-- One entry of the withdraw_multiple_tokens loop: amount > 0 required before
the mint lookup (a missing mint account is skipped); debit with zero-balance
cleanup WITH token_count decrement. -/
def multi_withdraw_entry (bank : Bank) (user : Pubkey) (amount : Nat)
    (mint : Option Pubkey) (uv : UserVault) : Except BankError UserVault :=
  if amount = 0 then .error .ZeroWithdrawal
  else
    match mint with
    | none => .ok uv
    | some token =>
      let key := generate_vault_key user token (generate_user_salt bank.salt user)
      match debit_vault uv key amount with
      | .error e => .error e
      | .ok (uv, idx) => cleanup_zero_dec uv token idx

/-- The loop of withdraw_multiple_tokens over (amount, mint account) pairs. -/
def multi_withdraw_loop (bank : Bank) (user : Pubkey) :
    List (Nat × Option Pubkey) → UserVault → Except BankError UserVault
  | [], uv => .ok uv
  | (amount, mint) :: rest, uv =>
    match multi_withdraw_entry bank user amount mint uv with
    | .error e => .error e
    | .ok uv => multi_withdraw_loop bank user rest uv

/-- withdraw_multiple_tokens: no anti-spam call in the source. -/
def withdraw_multiple_tokens (bank : Bank) (user : Pubkey) (amounts : List Nat)
    (mints : List (Option Pubkey)) (uv : UserVault) : Except BankError UserVault :=
  if bank.version ≠ 1 then .error .InvalidVersion
  else if uv.version ≠ 1 then .error .InvalidVersion
  else if ¬ (0 < amounts.length ∧ amounts.length ≤ 5) then .error .InvalidInput
  else multi_withdraw_loop bank user (entries_of amounts mints) uv

/-- The phase scan of create_expansion_vault: the first expansion link slot
that is None determines the phase to create (1..4); None means all four exist. -/
def first_open_phase (uv : UserVault) : Option Nat :=
  if uv.expansion_vault_1 = none then some 1
  else if uv.expansion_vault_2 = none then some 2
  else if uv.expansion_vault_3 = none then some 3
  else if uv.expansion_vault_4 = none then some 4
  else none

/-- The required_tokens table of create_expansion_vault. -/
def required_tokens_for_phase (phase : Nat) : Option Nat :=
  match phase with
  | 1 => some 5
  | 2 => some 10
  | 3 => some 15
  | 4 => some 20
  | _ => none

/-- create_expansion_vault: version gates, phase from the first free link slot
(else AllExpansionsCreated), require starter token_count >= required_tokens
(PreviousVaultNotFull) — note the source consults ONLY the starter record's
token_count — then create the zeroed expansion record with its metadata, link
it, and set current_phase and total_capacity = 5 + phase*5 on the starter. -/
def create_expansion_vault (bank : Bank) (user uvKey evKey : Pubkey)
    (uv : UserVault) : Except BankError (UserVault × ExpansionVault) :=
  if bank.version ≠ 1 then .error .InvalidVersion
  else if uv.version ≠ 1 then .error .InvalidVersion
  else
    match first_open_phase uv with
    | none => .error .AllExpansionsCreated
    | some phase =>
      match required_tokens_for_phase phase with
      | none => .error .InvalidPhase
      | some required =>
        if uv.token_count < required then .error .PreviousVaultNotFull
        else
          let ev := { emptyExpansionVault with
                      parent_vault := uvKey, user_owner := user,
                      vault_phase := phase, version := 1 }
          match phase with
          | 1 => .ok ({ uv with expansion_vault_1 := some evKey,
                                current_phase := phase,
                                total_capacity := 5 + phase * 5 }, ev)
          | 2 => .ok ({ uv with expansion_vault_2 := some evKey,
                                current_phase := phase,
                                total_capacity := 5 + phase * 5 }, ev)
          | 3 => .ok ({ uv with expansion_vault_3 := some evKey,
                                current_phase := phase,
                                total_capacity := 5 + phase * 5 }, ev)
          | 4 => .ok ({ uv with expansion_vault_4 := some evKey,
                                current_phase := phase,
                                total_capacity := 5 + phase * 5 }, ev)
          | _ => .error .InvalidPhase

/-- create_time_locked_vault: unlock must be in the future, description at most
256 chars; the vault starts unfunded and unclaimed; a missing mint account
means SOL (system_program::ID). -/
def create_time_locked_vault (now : Int) (owner recipient : Pubkey)
    (tokenMint : Option Pubkey) (unlock : Int) (descr : String) :
    Except BankError TimeLockedVault :=
  if ¬ now < unlock then .error .InvalidInput
  else if ¬ descr.length ≤ 256 then .error .InvalidInput
  else
    .ok { version := 1, owner := owner, recipient := recipient,
          unlock_timestamp := unlock, created_timestamp := now,
          token := (match tokenMint with | some m => m | none => SYSTEM_PROGRAM_ID),
          amount := 0, claimed := false, description := descr }

/-- fund_time_locked_vault: amount > 0, not claimed, caller is the owner,
strictly before the unlock time; the SOL branch requires the funder to hold the
lamports (the move itself is external); the escrowed amount accumulates with
checked addition. -/
def fund_time_locked_vault (now : Int) (funder : Pubkey) (funderLamports : Nat)
    (amount : Nat) (tv : TimeLockedVault) : Except BankError TimeLockedVault :=
  if amount = 0 then .error .ZeroDeposit
  else if tv.claimed then .error .InvalidInput
  else if tv.owner ≠ funder then .error .NotAuthorized
  else if ¬ now < tv.unlock_timestamp then .error .InvalidInput
  else if tv.token = SYSTEM_PROGRAM_ID ∧ funderLamports < amount then
    .error .InsufficientBalance
  else
    match checked_add_u64 tv.amount amount with
    | some a => .ok { tv with amount := a }
    | none => .error .Overflow

/-- claim_time_locked_vault: not claimed (the source reuses InvalidInput — the
error enum has no dedicated already-claimed variant), caller is the recipient,
at or after the unlock time, amount > 0; the SOL branch requires the vault to
hold the lamports; on success only `claimed` is set. -/
def claim_time_locked_vault (now : Int) (caller : Pubkey) (vaultLamports : Nat)
    (tv : TimeLockedVault) : Except BankError TimeLockedVault :=
  if tv.claimed then .error .InvalidInput
  else if tv.recipient ≠ caller then .error .NotAuthorized
  else if now < tv.unlock_timestamp then .error .InvalidInput
  else if tv.amount = 0 then .error .ZeroWithdrawal
  else if tv.token = SYSTEM_PROGRAM_ID ∧ vaultLamports < tv.amount then
    .error .InsufficientBalance
  else .ok { tv with claimed := true }

/-- Committed state at the call boundary: Anchor persists the handler's account
mutations only when the handler returns Ok; an Err aborts the transaction and
the prior state stands. -/
def committed {α : Type} (s : α) (r : Except BankError α) : α :=
  match r with
  | .ok x => x
  | .error _ => s

/-- Number of used balance slots of a record. -/
def count_used (used : List Bool) : Nat :=
  ((List.range 5).filter (fun i => used.getD i false)).length

/-- The asset ids held in the used tracking slots of one record's parallel
assets_tracked arrays. -/
def used_tracked_assets (tokens : List Pubkey) (used : List Bool) : List Pubkey :=
  ((List.range 5).filter (fun i => used.getD i false)).map (fun i => tokens.getD i 0)

/-- Modelled from the spec: "assets_tracked_count(starter ∪ all existing
expansions)" — the number of DISTINCT assets appearing in used assets_tracked
slots across the starter record and the given expansion records.  This is the
spec-side count claim C5 speaks of, to be compared against the token_count
counter create_expansion_vault actually consults (the two differ: several
untrack paths clear a tracking slot without decrementing token_count). -/
def assets_tracked_count (uv : UserVault) (exps : List ExpansionVault) : Nat :=
  (used_tracked_assets uv.user_tokens uv.token_used ++
    (exps.map (fun e => used_tracked_assets e.user_tokens e.token_used)).flatten).dedup.length

/-- One mutating instruction touching a given UserVault, in any role (depositor,
withdrawer, transfer sender, transfer recipient, expansion creator), with all
other inputs arbitrary.  Only Ok outcomes change the committed record, so only
they appear; an Err commits nothing (reflexivity covers it).  The remaining
instructions of the program (the read-only queries, collect_fees, and the
time-locked vault family) never write a UserVault. -/
inductive VStep : UserVault → UserVault → Prop where
  | dep_sol (bank : Bank) (user : Pubkey) (now price expo : Int) (amount : Nat)
      (fv fv' : FeeVault) (u u' : UserVault)
      (h : deposit_sol bank user now price expo amount u fv = .ok (u', fv')) : VStep u u'
  | wdr_sol (bank : Bank) (user : Pubkey) (now : Int) (amount : Nat) (u u' : UserVault)
      (h : withdraw_sol bank user now amount u = .ok u') : VStep u u'
  | xfer_sol_sender (bank : Bank) (user dst : Pubkey) (now : Int) (amount : Nat)
      (u u' rv rv' : UserVault)
      (h : transfer_internal_sol bank user dst now amount u rv = .ok (u', rv')) : VStep u u'
  | xfer_sol_recipient (bank : Bank) (user dst : Pubkey) (now : Int) (amount : Nat)
      (sv sv' u u' : UserVault)
      (h : transfer_internal_sol bank user dst now amount sv u = .ok (sv', u')) : VStep u u'
  | dep_tok (bank : Bank) (user token : Pubkey) (price expo : Int) (amount : Nat)
      (u u' : UserVault)
      (h : deposit_token bank user token price expo amount u = .ok u') : VStep u u'
  | wdr_tok (bank : Bank) (user token : Pubkey) (amount : Nat) (u u' : UserVault)
      (h : withdraw_token bank user token amount u = .ok u') : VStep u u'
  | xfer_tok_sender (bank : Bank) (user dst token : Pubkey) (now : Int) (amount : Nat)
      (u u' rv rv' : UserVault)
      (h : transfer_internal_token bank user dst token now amount u rv = .ok (u', rv')) :
      VStep u u'
  | xfer_tok_recipient (bank : Bank) (user dst token : Pubkey) (now : Int) (amount : Nat)
      (sv sv' u u' : UserVault)
      (h : transfer_internal_token bank user dst token now amount sv u = .ok (sv', u')) :
      VStep u u'
  | xfer_multi_sender (bank : Bank) (user dst : Pubkey) (now : Int) (amounts : List Nat)
      (mints : List (Option Pubkey)) (u u' rv rv' : UserVault)
      (h : transfer_multiple_tokens_internal bank user dst now amounts mints u rv
           = .ok (u', rv')) : VStep u u'
  | xfer_multi_recipient (bank : Bank) (user dst : Pubkey) (now : Int)
      (amounts : List Nat) (mints : List (Option Pubkey)) (sv sv' u u' : UserVault)
      (h : transfer_multiple_tokens_internal bank user dst now amounts mints sv u
           = .ok (sv', u')) : VStep u u'
  | dep_multi (bank : Bank) (user : Pubkey) (price expo : Int) (amounts : List Nat)
      (mints : List (Option Pubkey)) (u u' : UserVault)
      (h : deposit_multiple_tokens bank user price expo amounts mints u = .ok u') :
      VStep u u'
  | wdr_multi (bank : Bank) (user : Pubkey) (amounts : List Nat)
      (mints : List (Option Pubkey)) (u u' : UserVault)
      (h : withdraw_multiple_tokens bank user amounts mints u = .ok u') : VStep u u'
  | expand (bank : Bank) (user uvKey evKey : Pubkey) (u u' : UserVault)
      (ev : ExpansionVault)
      (h : create_expansion_vault bank user uvKey evKey u = .ok (u', ev)) : VStep u u'

/-- A UserVault state reachable from the freshly initialized record by any
sequence of committed instructions. -/
def ReachableVault (uv : UserVault) : Prop :=
  Relation.ReflTransGen VStep emptyUserVault uv

/-- Concrete Bank used by the concrete runs below. -/
def cBank : Bank := { fee_collector := 5, salt := 7, version := 1 }

/-- Concrete fresh FeeVault. -/
def cFeeVault : FeeVault := { total_fees := 0, last_collection := 0, version := 0 }

/-- C1.  The claim says every fee-bearing deposit credits amount - fee and adds
fee to the fee vault.  The SOL path does (first conjunct: amount 150000000 at
fee 100000000 credits 50000000 and the fee vault accumulates 100000000), but
deposit_token — after requiring amount > fee — credits the FULL amount (second
conjunct: 150000000, not 50000000); its handler takes no fee vault at all (see
the type of deposit_token), so no fee is routed anywhere.  The same holds for
deposit_multiple_tokens (third conjunct). -/
theorem claim_C1_token_deposits_skip_fee :
    (deposit_sol cBank 10 1000 100000000 (-8) 150000000 emptyUserVault cFeeVault).map
        (fun p => (balanceOf p.1 (generate_vault_key 10 SOL_TOKEN (generate_user_salt 7 10)),
                   p.2.total_fees))
      = .ok (50000000, 100000000) ∧
    (deposit_token cBank 10 21 100000000 (-8) 150000000 emptyUserVault).map
        (fun uv => balanceOf uv (generate_vault_key 10 21 (generate_user_salt 7 10)))
      = .ok 150000000 ∧
    (deposit_multiple_tokens cBank 10 100000000 (-8) [150000000] [some 21] emptyUserVault).map
        (fun uv => balanceOf uv (generate_vault_key 10 21 (generate_user_salt 7 10)))
      = .ok 150000000 := by
  refine ⟨by decide, by decide, by decide⟩

/-- C2.  The claim says balance_count always equals the number of used slots
and every slot-freeing operation decrements it.  Concretely: deposit 200000000
SOL at fee 100000000 (one slot, balance_count = 1), then withdraw the whole
100000000 — the slot is freed (count_used = 0) but balance_count stays 1; the
source never decrements balance_count anywhere. -/
theorem claim_C2_balance_count_leaks :
    ((deposit_sol cBank 10 1000 100000000 (-8) 200000000 emptyUserVault cFeeVault).bind
        (fun p => withdraw_sol cBank 10 1002 100000000 p.1)).map
        (fun uv => (uv.balance_count, count_used uv.balance_used))
      = .ok (1, 0) := by
  decide

/-- Rate-capped vault for the C8 run: 100 transactions in the current second
and 1000 in the current minute, one SPL balance of 500 for token 21. -/
def uvRateCapped : UserVault :=
  { emptyUserVault with
    balance_keys := [generate_vault_key 10 21 (generate_user_salt 7 10),
                     zeroVKey, zeroVKey, zeroVKey, zeroVKey],
    balance_values := [500, 0, 0, 0, 0],
    balance_count := 1,
    balance_used := [true, false, false, false, false],
    user_tokens := [21, 0, 0, 0, 0],
    token_count := 1,
    token_used := [true, false, false, false, false],
    transaction_count_second := 100,
    transaction_count_minute := 1000,
    last_transaction_second := 1000,
    last_transaction_minute := 1000,
    version := 1 }

/-- C8.  The claim says every balance-affecting operation passes the rate-limit
check before mutating a balance.  On a vault saturated at both caps at time
1000 the guard itself rejects (first conjunct), yet withdraw_token — whose
source contains no check_and_update_anti_spam call — mutates the balance
500 -> 450 and leaves the anti-spam counters untouched (second conjunct).
deposit_token, deposit_multiple_tokens and withdraw_multiple_tokens likewise
omit the guard (third conjunct shows deposit_token succeeding on the same
saturated vault). -/
theorem claim_C8_withdraw_token_bypasses_rate_limit :
    check_and_update_anti_spam 1000 uvRateCapped = .error .RateLimitExceeded ∧
    (withdraw_token cBank 10 21 50 uvRateCapped).map
        (fun uv => (balanceOf uv (generate_vault_key 10 21 (generate_user_salt 7 10)),
                    uv.transaction_count_second, uv.transaction_count_minute))
      = .ok (450, 100, 1000) ∧
    (deposit_token cBank 10 21 100000000 (-8) 150000000 uvRateCapped).map
        (fun uv => balanceOf uv (generate_vault_key 10 21 (generate_user_salt 7 10)))
      = .ok 150000500 := by
  refine ⟨by decide, by decide, by decide⟩

/-- SOL time-locked vault unlocking at 500 holding 300, not yet claimed. -/
def tvFunded : TimeLockedVault :=
  { version := 1, owner := 1, recipient := 2, unlock_timestamp := 500,
    created_timestamp := 0, token := SYSTEM_PROGRAM_ID, amount := 300,
    claimed := false, description := "" }

/-- C6 counterexample.  The claim says a repeated claim fails with error
AlreadyClaimed.  The source's error enum (embedded verbatim as BankError) has
no AlreadyClaimed variant at all; a claim on an already-claimed vault fails
with the generic InvalidInput (first conjunct) — the very same error a
too-early claim on an unclaimed vault gets (second conjunct), so it is not a
renamed already-claimed error. -/
theorem claim_C6_second_claim_error_is_invalid_input :
    claim_time_locked_vault 600 2 1000 { tvFunded with claimed := true }
      = .error .InvalidInput ∧
    claim_time_locked_vault 400 2 1000 tvFunded = .error .InvalidInput := by
  refine ⟨by decide, by decide⟩

/-- C7.  The fee function: PriceInvalid (source name InvalidPrice) exactly when
price <= 0 or expo >= 0; otherwise the exact floor(10^8 * 10^|expo| / price)
when it fits u64 and Overflow when it does not; and the concrete value
fee(100000000, -8) = 100000000. -/
theorem claim_C7_fee_formula : ∀ price expo : Int,
    (price ≤ 0 ∨ 0 ≤ expo → calculate_usd_based_fee price expo = .error .InvalidPrice) ∧
    (0 < price → expo < 0 →
      calculate_usd_based_fee price expo =
        if 10 ^ 8 * 10 ^ expo.natAbs / price.toNat ≤ U64_MAX
        then .ok (10 ^ 8 * 10 ^ expo.natAbs / price.toNat)
        else .error .Overflow) ∧
    calculate_usd_based_fee 100000000 (-8) = .ok 100000000 := by
  intro price expo
  refine ⟨?_, ?_, by decide⟩
  · intro h
    simp [calculate_usd_based_fee, h]
  · intro hp he
    have hcond : ¬ (price ≤ 0 ∨ 0 ≤ expo) := by
      push_neg
      exact ⟨hp, he⟩
    simp [calculate_usd_based_fee, hcond]

theorem claim_C7_witness :
    calculate_usd_based_fee 0 (-8) = .error .InvalidPrice ∧
    calculate_usd_based_fee 100000000 (-8) = .ok 100000000 :=
  ⟨(claim_C7_fee_formula 0 (-8)).1 (Or.inl (by decide)),
   (claim_C7_fee_formula 100000000 (-8)).2.2⟩

/-- C3.  Batch internal transfers are all-or-nothing at the call boundary: the
handler is a single Anchor instruction, and when it returns an error the
transaction aborts and none of its in-memory account mutations — including
those of batch entries processed before the failing one — is persisted.  The
committed state on any error outcome is exactly the prior (sender, recipient)
pair. -/
theorem claim_C3_batch_all_or_nothing :
    ∀ (bank : Bank) (user dst : Pubkey) (now : Int) (amounts : List Nat)
      (mints : List (Option Pubkey)) (uv rv : UserVault) (e : BankError),
    transfer_multiple_tokens_internal bank user dst now amounts mints uv rv = .error e →
    committed (uv, rv) (transfer_multiple_tokens_internal bank user dst now amounts mints uv rv)
      = (uv, rv) := by
  intro bank user dst now amounts mints uv rv e h
  rw [h]
  rfl

/-- Sender vault for the spec's batch scenario: balances 50 / 5 / 100 for
tokens 31 / 32 / 33 — asset 2's balance (5) is below the requested 20. -/
def uvBatch : UserVault :=
  { emptyUserVault with
    balance_keys := [generate_vault_key 10 31 (generate_user_salt 7 10),
                     generate_vault_key 10 32 (generate_user_salt 7 10),
                     generate_vault_key 10 33 (generate_user_salt 7 10),
                     zeroVKey, zeroVKey],
    balance_values := [50, 5, 100, 0, 0],
    balance_count := 3,
    balance_used := [true, true, true, false, false],
    user_tokens := [31, 32, 33, 0, 0],
    token_count := 3,
    token_used := [true, true, true, false, false],
    version := 1 }

theorem claim_C3_witness :
    transfer_multiple_tokens_internal cBank 10 20 1000 [10, 20, 30]
        [some 31, some 32, some 33, none, none] uvBatch emptyUserVault
      = .error .InsufficientBalance ∧
    committed (uvBatch, emptyUserVault)
        (transfer_multiple_tokens_internal cBank 10 20 1000 [10, 20, 30]
          [some 31, some 32, some 33, none, none] uvBatch emptyUserVault)
      = (uvBatch, emptyUserVault) :=
  ⟨by decide,
   claim_C3_batch_all_or_nothing cBank 10 20 1000 [10, 20, 30]
     [some 31, some 32, some 33, none, none] uvBatch emptyUserVault
     .InsufficientBalance (by decide)⟩

theorem checked_add_u8_eq (a b c : Nat) (h : checked_add_u8 a b = some c) : c = a + b := by
  unfold checked_add_u8 at h
  split at h
  · injection h with h
    exact h.symm
  · exact Option.noConfusion h

theorem checked_add_u16_eq (a b c : Nat) (h : checked_add_u16 a b = some c) : c = a + b := by
  unfold checked_add_u16 at h
  split at h
  · injection h with h
    exact h.symm
  · exact Option.noConfusion h

theorem checked_add_u64_eq (a b c : Nat) (h : checked_add_u64 a b = some c) : c = a + b := by
  unfold checked_add_u64 at h
  split at h
  · injection h with h
    exact h.symm
  · exact Option.noConfusion h

theorem checked_sub_nat_eq (a b c : Nat) (h : checked_sub_nat a b = some c) :
    c = a - b ∧ b ≤ a := by
  unfold checked_sub_nat at h
  split at h
  · injection h with h
    exact ⟨h.symm, by assumption⟩
  · exact Option.noConfusion h

/-- The per-instruction facts the reachability invariants need: balance_count
never shrinks; token_count stays within 5 when it was; links 2..4 are untouched
while token_count is within 5; version moves only to 1 or stays; link 1 becomes
populated only by an instruction that verified version 1. -/
def OpPres (u u' : UserVault) : Prop :=
  u.balance_count ≤ u'.balance_count ∧
  (u.token_count ≤ 5 → u'.token_count ≤ 5) ∧
  (u.token_count ≤ 5 →
     u'.expansion_vault_2 = u.expansion_vault_2 ∧
     u'.expansion_vault_3 = u.expansion_vault_3 ∧
     u'.expansion_vault_4 = u.expansion_vault_4) ∧
  (u'.version = 1 ∨ u'.version = u.version) ∧
  (u'.expansion_vault_1.isSome = true →
     u.expansion_vault_1.isSome = true ∨ u'.version = 1)

theorem opPres_refl (u : UserVault) : OpPres u u := by
  refine ⟨le_refl _, fun h => h, fun _ => ⟨rfl, rfl, rfl⟩, Or.inr rfl, fun h => Or.inl h⟩

theorem opPres_trans {a b c : UserVault} (h1 : OpPres a b) (h2 : OpPres b c) : OpPres a c := by
  obtain ⟨m1, t1, e1, v1, l1⟩ := h1
  obtain ⟨m2, t2, e2, v2, l2⟩ := h2
  refine ⟨le_trans m1 m2, fun h => t2 (t1 h), fun h => ?_, ?_, fun h => ?_⟩
  · obtain ⟨x2, x3, x4⟩ := e1 h
    obtain ⟨y2, y3, y4⟩ := e2 (t1 h)
    exact ⟨y2.trans x2, y3.trans x3, y4.trans x4⟩
  · rcases v2 with h | h
    · exact Or.inl h
    · rcases v1 with h' | h'
      · exact Or.inl (h.trans h')
      · exact Or.inr (h.trans h')
  · rcases l2 h with h' | h'
    · rcases l1 h' with h'' | h''
      · exact Or.inl h''
      · rcases v2 with hv | hv
        · exact Or.inr hv
        · exact Or.inr (hv.trans h'')
    · exact Or.inr h'

/-- check_and_update_anti_spam only writes the four anti-spam fields. -/
theorem anti_spam_ok_fields (now : Int) (u u' : UserVault)
    (h : check_and_update_anti_spam now u = .ok u') :
    u'.balance_keys = u.balance_keys ∧ u'.balance_values = u.balance_values ∧
    u'.balance_used = u.balance_used ∧ u'.balance_count = u.balance_count ∧
    u'.user_tokens = u.user_tokens ∧ u'.token_count = u.token_count ∧
    u'.token_used = u.token_used ∧
    u'.expansion_vault_1 = u.expansion_vault_1 ∧
    u'.expansion_vault_2 = u.expansion_vault_2 ∧
    u'.expansion_vault_3 = u.expansion_vault_3 ∧
    u'.expansion_vault_4 = u.expansion_vault_4 ∧
    u'.total_capacity = u.total_capacity ∧
    u'.current_phase = u.current_phase ∧
    u'.version = u.version := by
  unfold check_and_update_anti_spam at h
  dsimp only at h
  repeat' split at h
  all_goals first
    | exact Except.noConfusion h
    | (injection h with h ; subst h ; simp_all)

theorem anti_spam_ok_pres (now : Int) (u u' : UserVault)
    (h : check_and_update_anti_spam now u = .ok u') : OpPres u u' := by
  obtain ⟨_, _, _, h4, _, h6, _, h8, h9, h10, h11, _, _, h14⟩ := anti_spam_ok_fields now u u' h
  refine ⟨le_of_eq h4.symm, fun hh => h6 ▸ hh, fun _ => ⟨h9, h10, h11⟩,
          Or.inr h14, fun hh => Or.inl (h8 ▸ hh)⟩

theorem credit_vault_pres (uv : UserVault) (key : VKey) (amount : Nat) (uv' : UserVault)
    (h : credit_vault uv key amount = .ok uv') : OpPres uv uv' := by
  unfold credit_vault at h
  repeat' split at h
  all_goals try exact Except.noConfusion h
  all_goals (injection h with h ; subst h)
  · exact ⟨le_refl _, fun hh => hh, fun _ => ⟨rfl, rfl, rfl⟩, Or.inr rfl, fun hh => Or.inl hh⟩
  · rename_i c hadd
    have hc := checked_add_u8_eq _ _ _ hadd
    refine ⟨?_, fun hh => hh, fun _ => ⟨rfl, rfl, rfl⟩, Or.inr rfl, fun hh => Or.inl hh⟩
    show uv.balance_count ≤ c
    omega

theorem track_token_pres (uv : UserVault) (token : Pubkey) (uv' : UserVault)
    (h : track_token uv token = .ok uv') : OpPres uv uv' := by
  unfold track_token at h
  repeat' split at h
  all_goals try exact Except.noConfusion h
  all_goals (injection h with h ; subst h)
  · exact opPres_refl uv
  · rename_i hlt hfree c hadd
    have hc := checked_add_u8_eq _ _ _ hadd
    refine ⟨le_refl _, fun _ => ?_, fun _ => ⟨rfl, rfl, rfl⟩, Or.inr rfl,
           fun hh => Or.inl hh⟩
    show c ≤ 5
    omega

theorem debit_vault_pres (uv : UserVault) (key : VKey) (amount : Nat) (uv' : UserVault)
    (idx : Option Nat) (h : debit_vault uv key amount = .ok (uv', idx)) : OpPres uv uv' := by
  unfold debit_vault at h
  dsimp only at h
  repeat' split at h
  all_goals try exact Except.noConfusion h
  all_goals (injection h with h ; rw [Prod.mk.injEq] at h ; obtain ⟨h, -⟩ := h ; subst h)
  · exact opPres_refl uv
  · exact ⟨le_refl _, fun hh => hh, fun _ => ⟨rfl, rfl, rfl⟩, Or.inr rfl, fun hh => Or.inl hh⟩

theorem set_balance_used_pres (uv : UserVault) (l : List Bool) :
    OpPres uv { uv with balance_used := l } :=
  ⟨le_refl _, fun hh => hh, fun _ => ⟨rfl, rfl, rfl⟩, Or.inr rfl, fun hh => Or.inl hh⟩

theorem untrack_token_no_dec_pres (uv : UserVault) (token : Pubkey) :
    OpPres uv (untrack_token_no_dec uv token) := by
  unfold untrack_token_no_dec
  split
  · exact ⟨le_refl _, fun hh => hh, fun _ => ⟨rfl, rfl, rfl⟩, Or.inr rfl, fun hh => Or.inl hh⟩
  · exact opPres_refl uv

theorem cleanup_zero_pres (uv : UserVault) (token : Pubkey) (idx : Option Nat) :
    OpPres uv (cleanup_zero uv token idx) := by
  unfold cleanup_zero
  split
  · split
    · exact opPres_trans (set_balance_used_pres uv _) (untrack_token_no_dec_pres _ token)
    · exact opPres_refl uv
  · exact opPres_refl uv

theorem untrack_token_dec_pres (uv : UserVault) (token : Pubkey) (uv' : UserVault)
    (h : untrack_token_dec uv token = .ok uv') : OpPres uv uv' := by
  unfold untrack_token_dec at h
  repeat' split at h
  all_goals try exact Except.noConfusion h
  all_goals (injection h with h ; subst h)
  · rename_i c hsub
    obtain ⟨hc, hba⟩ := checked_sub_nat_eq _ _ _ hsub
    refine ⟨le_refl _, fun hh => ?_, fun _ => ⟨rfl, rfl, rfl⟩, Or.inr rfl,
           fun hh => Or.inl hh⟩
    show c ≤ 5
    omega
  · exact opPres_refl uv

theorem cleanup_zero_dec_pres (uv : UserVault) (token : Pubkey) (idx : Option Nat)
    (uv' : UserVault) (h : cleanup_zero_dec uv token idx = .ok uv') : OpPres uv uv' := by
  unfold cleanup_zero_dec at h
  repeat' split at h
  · exact opPres_trans (set_balance_used_pres uv _) (untrack_token_dec_pres _ token _ h)
  · injection h with h
    subst h
    exact opPres_refl uv
  · injection h with h
    subst h
    exact opPres_refl uv

theorem set_version_one_pres (uv : UserVault) :
    OpPres uv { uv with version := 1 } := by
  exact ⟨le_refl _, fun hh => hh, fun _ => ⟨rfl, rfl, rfl⟩, Or.inl rfl, fun hh => Or.inl hh⟩

theorem create_expansion_vault_pres (bank : Bank) (user uvKey evKey : Pubkey)
    (uv uv' : UserVault) (ev : ExpansionVault)
    (h : create_expansion_vault bank user uvKey evKey uv = .ok (uv', ev)) : OpPres uv uv' := by
  unfold create_expansion_vault at h
  repeat' split at h
  all_goals try exact Except.noConfusion h
  all_goals
    (injection h with h ; rw [Prod.mk.injEq] at h ; obtain ⟨h, -⟩ := h ; subst h)
  all_goals simp only [ne_eq, not_not, required_tokens_for_phase, Option.some.injEq,
    not_lt] at *
  all_goals
    refine ⟨le_refl _, fun hh => hh, fun hh => ?_, Or.inr rfl, fun hh => ?_⟩
  · exact ⟨rfl, rfl, rfl⟩
  · exact Or.inr (by simp_all)
  · exact absurd hh (by omega)
  · exact Or.inl hh
  · exact absurd hh (by omega)
  · exact Or.inl hh
  · exact absurd hh (by omega)
  · exact Or.inl hh

theorem deposit_sol_pres (bank : Bank) (user : Pubkey) (now price expo : Int)
    (amount : Nat) (uv uv' : UserVault) (fv fv' : FeeVault)
    (h : deposit_sol bank user now price expo amount uv fv = .ok (uv', fv')) :
    OpPres uv uv' := by
  unfold deposit_sol at h
  dsimp only at h
  repeat' split at h
  all_goals try exact Except.noConfusion h
  injection h with h
  rw [Prod.mk.injEq] at h
  obtain ⟨h, -⟩ := h
  subst h
  exact opPres_trans (set_version_one_pres uv)
    (opPres_trans (anti_spam_ok_pres _ _ _ (by assumption))
      (opPres_trans (credit_vault_pres _ _ _ _ (by assumption))
        (track_token_pres _ _ _ (by assumption))))

theorem withdraw_sol_pres (bank : Bank) (user : Pubkey) (now : Int) (amount : Nat)
    (uv uv' : UserVault) (h : withdraw_sol bank user now amount uv = .ok uv') :
    OpPres uv uv' := by
  unfold withdraw_sol at h
  dsimp only at h
  repeat' split at h
  all_goals try exact Except.noConfusion h
  injection h with h
  subst h
  exact opPres_trans (anti_spam_ok_pres _ _ _ (by assumption))
    (opPres_trans (debit_vault_pres _ _ _ _ _ (by assumption))
      (cleanup_zero_pres _ _ _))

theorem deposit_token_pres (bank : Bank) (user token : Pubkey) (price expo : Int)
    (amount : Nat) (uv uv' : UserVault)
    (h : deposit_token bank user token price expo amount uv = .ok uv') :
    OpPres uv uv' := by
  unfold deposit_token at h
  dsimp only at h
  repeat' split at h
  all_goals try exact Except.noConfusion h
  exact opPres_trans (set_version_one_pres uv)
    (opPres_trans (credit_vault_pres _ _ _ _ (by assumption))
      (track_token_pres _ _ _ h))

theorem withdraw_token_pres (bank : Bank) (user token : Pubkey) (amount : Nat)
    (uv uv' : UserVault) (h : withdraw_token bank user token amount uv = .ok uv') :
    OpPres uv uv' := by
  unfold withdraw_token at h
  dsimp only at h
  repeat' split at h
  all_goals try exact Except.noConfusion h
  injection h with h
  subst h
  exact opPres_trans (debit_vault_pres _ _ _ _ _ (by assumption))
    (cleanup_zero_pres _ _ _)

theorem version_init_pres (rv : UserVault) :
    OpPres rv (if rv.version = 0 then { rv with version := 1 } else rv) := by
  split
  · exact set_version_one_pres rv
  · exact opPres_refl rv

theorem transfer_internal_sol_pres (bank : Bank) (user dst : Pubkey) (now : Int)
    (amount : Nat) (uv rv uv' rv' : UserVault)
    (h : transfer_internal_sol bank user dst now amount uv rv = .ok (uv', rv')) :
    OpPres uv uv' ∧ OpPres rv rv' := by
  unfold transfer_internal_sol at h
  dsimp only at h
  repeat' split at h
  all_goals try exact Except.noConfusion h
  all_goals
    (injection h with h ; rw [Prod.mk.injEq] at h ; obtain ⟨h1, h2⟩ := h ;
     subst h1 ; subst h2)
  all_goals constructor
  all_goals first
    | exact opPres_trans (anti_spam_ok_pres _ _ _ (by assumption))
        (opPres_trans (debit_vault_pres _ _ _ _ _ (by assumption))
          (cleanup_zero_pres _ _ _))
    | exact opPres_trans (version_init_pres rv)
        (opPres_trans (credit_vault_pres _ _ _ _ (by assumption))
          (track_token_pres _ _ _ (by assumption)))

theorem transfer_internal_token_pres (bank : Bank) (user dst token : Pubkey)
    (now : Int) (amount : Nat) (uv rv uv' rv' : UserVault)
    (h : transfer_internal_token bank user dst token now amount uv rv = .ok (uv', rv')) :
    OpPres uv uv' ∧ OpPres rv rv' := by
  unfold transfer_internal_token at h
  dsimp only at h
  repeat' split at h
  all_goals try exact Except.noConfusion h
  all_goals
    (injection h with h ; rw [Prod.mk.injEq] at h ; obtain ⟨h1, h2⟩ := h ;
     subst h1 ; subst h2)
  all_goals constructor
  all_goals first
    | exact opPres_trans (anti_spam_ok_pres _ _ _ (by assumption))
        (opPres_trans (debit_vault_pres _ _ _ _ _ (by assumption))
          (cleanup_zero_pres _ _ _))
    | exact opPres_trans (version_init_pres rv)
        (opPres_trans (credit_vault_pres _ _ _ _ (by assumption))
          (track_token_pres _ _ _ (by assumption)))

theorem multi_transfer_entry_pres (bank : Bank) (user dst : Pubkey) (amount : Nat)
    (token : Pubkey) (uv rv uv' rv' : UserVault)
    (h : multi_transfer_entry bank user dst amount token uv rv = .ok (uv', rv')) :
    OpPres uv uv' ∧ OpPres rv rv' := by
  unfold multi_transfer_entry at h
  dsimp only at h
  repeat' split at h
  all_goals try exact Except.noConfusion h
  all_goals
    (injection h with h ; rw [Prod.mk.injEq] at h ; obtain ⟨h1, h2⟩ := h ;
     subst h1 ; subst h2)
  constructor
  · exact opPres_trans (debit_vault_pres _ _ _ _ _ (by assumption))
      (cleanup_zero_dec_pres _ _ _ _ (by assumption))
  · exact opPres_trans (credit_vault_pres _ _ _ _ (by assumption))
      (track_token_pres _ _ _ (by assumption))

theorem multi_transfer_loop_pres (bank : Bank) (user dst : Pubkey)
    (entries : List (Nat × Option Pubkey)) :
    ∀ uv rv uv' rv',
      multi_transfer_loop bank user dst entries uv rv = .ok (uv', rv') →
      OpPres uv uv' ∧ OpPres rv rv' := by
  induction entries with
  | nil =>
    intro uv rv uv' rv' h
    unfold multi_transfer_loop at h
    injection h with h
    rw [Prod.mk.injEq] at h
    obtain ⟨h1, h2⟩ := h
    subst h1
    subst h2
    exact ⟨opPres_refl uv, opPres_refl rv⟩
  | cons e rest ih =>
    intro uv rv uv' rv' h
    obtain ⟨amount, mint⟩ := e
    unfold multi_transfer_loop at h
    repeat' split at h
    all_goals try exact Except.noConfusion h
    · exact ih uv rv uv' rv' h
    · obtain ⟨p1, p2⟩ := multi_transfer_entry_pres _ _ _ _ _ _ _ _ _ (by assumption)
      obtain ⟨q1, q2⟩ := ih _ _ _ _ h
      exact ⟨opPres_trans p1 q1, opPres_trans p2 q2⟩

theorem transfer_multiple_tokens_internal_pres (bank : Bank) (user dst : Pubkey)
    (now : Int) (amounts : List Nat) (mints : List (Option Pubkey))
    (uv rv uv' rv' : UserVault)
    (h : transfer_multiple_tokens_internal bank user dst now amounts mints uv rv
         = .ok (uv', rv')) : OpPres uv uv' ∧ OpPres rv rv' := by
  unfold transfer_multiple_tokens_internal at h
  dsimp only at h
  repeat' split at h
  all_goals try exact Except.noConfusion h
  all_goals obtain ⟨p1, p2⟩ := multi_transfer_loop_pres _ _ _ _ _ _ _ _ h
  all_goals refine ⟨opPres_trans (anti_spam_ok_pres _ _ _ (by assumption)) p1, ?_⟩
  · exact opPres_trans (set_version_one_pres rv) p2
  · exact p2

theorem multi_deposit_entry_pres (bank : Bank) (user : Pubkey) (price expo : Int)
    (amount : Nat) (mint : Option Pubkey) (uv uv' : UserVault)
    (h : multi_deposit_entry bank user price expo amount mint uv = .ok uv') :
    OpPres uv uv' := by
  unfold multi_deposit_entry at h
  dsimp only at h
  repeat' split at h
  all_goals try exact Except.noConfusion h
  all_goals first
    | (injection h with h ; subst h ; exact opPres_refl uv)
    | exact opPres_trans (credit_vault_pres _ _ _ _ (by assumption))
        (track_token_pres _ _ _ h)

theorem multi_withdraw_entry_pres (bank : Bank) (user : Pubkey) (amount : Nat)
    (mint : Option Pubkey) (uv uv' : UserVault)
    (h : multi_withdraw_entry bank user amount mint uv = .ok uv') : OpPres uv uv' := by
  unfold multi_withdraw_entry at h
  dsimp only at h
  repeat' split at h
  all_goals try exact Except.noConfusion h
  all_goals first
    | (injection h with h ; subst h ; exact opPres_refl uv)
    | exact opPres_trans (debit_vault_pres _ _ _ _ _ (by assumption))
        (cleanup_zero_dec_pres _ _ _ _ h)

theorem multi_deposit_loop_pres (bank : Bank) (user : Pubkey) (price expo : Int)
    (entries : List (Nat × Option Pubkey)) :
    ∀ uv uv', multi_deposit_loop bank user price expo entries uv = .ok uv' →
      OpPres uv uv' := by
  induction entries with
  | nil =>
    intro uv uv' h
    unfold multi_deposit_loop at h
    injection h with h
    subst h
    exact opPres_refl uv
  | cons e rest ih =>
    intro uv uv' h
    obtain ⟨amount, mint⟩ := e
    unfold multi_deposit_loop at h
    repeat' split at h
    all_goals try exact Except.noConfusion h
    exact opPres_trans (multi_deposit_entry_pres _ _ _ _ _ _ _ _ (by assumption))
      (ih _ _ h)

theorem deposit_multiple_tokens_pres (bank : Bank) (user : Pubkey) (price expo : Int)
    (amounts : List Nat) (mints : List (Option Pubkey)) (uv uv' : UserVault)
    (h : deposit_multiple_tokens bank user price expo amounts mints uv = .ok uv') :
    OpPres uv uv' := by
  unfold deposit_multiple_tokens at h
  dsimp only at h
  repeat' split at h
  all_goals try exact Except.noConfusion h
  exact opPres_trans (set_version_one_pres uv) (multi_deposit_loop_pres _ _ _ _ _ _ _ h)

theorem multi_withdraw_loop_pres (bank : Bank) (user : Pubkey)
    (entries : List (Nat × Option Pubkey)) :
    ∀ uv uv', multi_withdraw_loop bank user entries uv = .ok uv' → OpPres uv uv' := by
  induction entries with
  | nil =>
    intro uv uv' h
    unfold multi_withdraw_loop at h
    injection h with h
    subst h
    exact opPres_refl uv
  | cons e rest ih =>
    intro uv uv' h
    obtain ⟨amount, mint⟩ := e
    unfold multi_withdraw_loop at h
    repeat' split at h
    all_goals try exact Except.noConfusion h
    exact opPres_trans (multi_withdraw_entry_pres _ _ _ _ _ _ (by assumption))
      (ih _ _ h)

theorem withdraw_multiple_tokens_pres (bank : Bank) (user : Pubkey)
    (amounts : List Nat) (mints : List (Option Pubkey)) (uv uv' : UserVault)
    (h : withdraw_multiple_tokens bank user amounts mints uv = .ok uv') :
    OpPres uv uv' := by
  unfold withdraw_multiple_tokens at h
  repeat' split at h
  all_goals try exact Except.noConfusion h
  exact multi_withdraw_loop_pres _ _ _ _ _ h

/-- Every committed instruction outcome satisfies the preservation facts. -/
theorem vstep_pres (u u' : UserVault) (h : VStep u u') : OpPres u u' := by
  cases h with
  | dep_sol bank user now price expo amount fv fv' u u' h =>
    exact deposit_sol_pres bank user now price expo amount u u' fv fv' h
  | wdr_sol bank user now amount u u' h => exact withdraw_sol_pres bank user now amount u u' h
  | xfer_sol_sender bank user dst now amount u u' rv rv' h =>
    exact (transfer_internal_sol_pres bank user dst now amount u rv u' rv' h).1
  | xfer_sol_recipient bank user dst now amount sv sv' u u' h =>
    exact (transfer_internal_sol_pres bank user dst now amount sv u sv' u' h).2
  | dep_tok bank user token price expo amount u u' h =>
    exact deposit_token_pres bank user token price expo amount u u' h
  | wdr_tok bank user token amount u u' h =>
    exact withdraw_token_pres bank user token amount u u' h
  | xfer_tok_sender bank user dst token now amount u u' rv rv' h =>
    exact (transfer_internal_token_pres bank user dst token now amount u rv u' rv' h).1
  | xfer_tok_recipient bank user dst token now amount sv sv' u u' h =>
    exact (transfer_internal_token_pres bank user dst token now amount sv u sv' u' h).2
  | xfer_multi_sender bank user dst now amounts mints u u' rv rv' h =>
    exact (transfer_multiple_tokens_internal_pres bank user dst now amounts mints
      u rv u' rv' h).1
  | xfer_multi_recipient bank user dst now amounts mints sv sv' u u' h =>
    exact (transfer_multiple_tokens_internal_pres bank user dst now amounts mints
      sv u sv' u' h).2
  | dep_multi bank user price expo amounts mints u u' h =>
    exact deposit_multiple_tokens_pres bank user price expo amounts mints u u' h
  | wdr_multi bank user amounts mints u u' h =>
    exact withdraw_multiple_tokens_pres bank user amounts mints u u' h
  | expand bank user uvKey evKey u u' ev h =>
    exact create_expansion_vault_pres bank user uvKey evKey u u' ev h

/-- The reachability invariant of a starter vault: the tracked-token counter
stays within the 5 slots, no phase-2..4 expansion link ever exists, and a vault
that acquired its first expansion link has version 1. -/
def VaultInv (u : UserVault) : Prop :=
  u.token_count ≤ 5 ∧
  (u.expansion_vault_1.isSome = true → u.version = 1) ∧
  u.expansion_vault_2 = none ∧ u.expansion_vault_3 = none ∧ u.expansion_vault_4 = none

theorem vault_inv_step (u u' : UserVault) (hInv : VaultInv u) (h : VStep u u') :
    VaultInv u' := by
  obtain ⟨p1, p2, p3, p4, p5⟩ := vstep_pres u u' h
  obtain ⟨i1, i2, i3, i4, i5⟩ := hInv
  obtain ⟨e2, e3, e4⟩ := p3 i1
  refine ⟨p2 i1, fun hs => ?_, e2.trans i3, e3.trans i4, e4.trans i5⟩
  rcases p5 hs with hexp | hv
  · rcases p4 with hv | hv
    · exact hv
    · exact hv.trans (i2 hexp)
  · exact hv

theorem vault_inv_reachable (u : UserVault) (h : ReachableVault u) : VaultInv u := by
  unfold ReachableVault at h
  induction h with
  | refl => exact ⟨by decide, by decide, rfl, rfl, rfl⟩
  | tail hs hstep ih => exact vault_inv_step _ _ ih hstep

theorem calculate_fee_ok_gate (price expo : Int) (fee : Nat)
    (h : calculate_usd_based_fee price expo = .ok fee) : 0 < price ∧ expo < 0 := by
  unfold calculate_usd_based_fee at h
  split at h
  · exact Except.noConfusion h
  · rename_i hcond
    push_neg at hcond
    exact hcond

theorem replicate_false_getD (i : Nat) : (List.replicate 5 false).getD i false = false := by
  rcases lt_or_ge i 5 with hi | hi
  · interval_cases i <;> decide
  · rw [List.getD_eq_default]
    simpa using hi

theorem find_balance_idx_all_unused (keys : List VKey) (used : List Bool) (key : VKey)
    (h : ∀ i : Nat, used.getD i false = false) :
    find_balance_idx keys used key = none := by
  unfold find_balance_idx
  rw [List.find?_eq_none]
  intro i hi
  rw [h i]
  simp

/-- C9.  balance_count is monotone under every committed instruction sequence
(no handler ever decrements it), and a record whose balance_count has reached 5
rejects any credit of an asset key not currently in a used slot with
TooManyBalances — even when every one of its 5 balance slots is free
(used == false), because the capacity check reads balance_count, not the slots.
Stated for deposit_token; the credit block is the same in all deposit and
transfer handlers. -/
theorem claim_C9_balance_count_monotone :
    ∀ u u' : UserVault, Relation.ReflTransGen VStep u u' →
    u.balance_count ≤ u'.balance_count ∧
    (∀ (bank : Bank) (user token : Pubkey) (price expo : Int) (amount fee : Nat),
      u'.balance_used = List.replicate 5 false →
      5 ≤ u'.balance_count →
      bank.version = 1 →
      calculate_usd_based_fee price expo = .ok fee →
      fee < amount →
      deposit_token bank user token price expo amount u' = .error .TooManyBalances) := by
  intro u u' hsteps
  constructor
  · induction hsteps with
    | refl => exact le_refl _
    | tail hs hstep ih => exact le_trans ih (vstep_pres _ _ hstep).1
  · intro bank user token price expo amount fee hused hcount hbank hfee hlt
    obtain ⟨hp, he⟩ := calculate_fee_ok_gate price expo fee hfee
    have hgate : pyth_price_gate price expo = .ok () := by
      simp [pyth_price_gate, hp, he]
    have hfind : find_balance_idx u'.balance_keys u'.balance_used
        (generate_vault_key user token (generate_user_salt bank.salt user)) = none :=
      find_balance_idx_all_unused _ _ _ (fun i => by rw [hused] ; exact replicate_false_getD i)
    have hamount : ¬ amount = 0 := by omega
    have hnotlt : ¬ u'.balance_count < 5 := by omega
    simp [deposit_token, hbank, hamount, hgate, hfee, hlt, credit_vault, hfind, hnotlt]

/-- C10.  On every reachable starter vault token_count <= 5 (track_token
increments only below 5, and the only decrements are checked subtractions), no
phase-2..4 expansion record ever exists, and once the first expansion link is
set every further create_expansion_vault call fails PreviousVaultNotFull: the
next phase would be 2, whose requirement of 10 tracked tokens can never be met
by a counter bounded by 5. -/
theorem claim_C10_phase2_unreachable : ∀ u : UserVault, ReachableVault u →
    u.token_count ≤ 5 ∧
    u.expansion_vault_2 = none ∧ u.expansion_vault_3 = none ∧
    u.expansion_vault_4 = none ∧
    (u.expansion_vault_1.isSome = true →
      ∀ (bank : Bank) (user uvKey evKey : Pubkey), bank.version = 1 →
        create_expansion_vault bank user uvKey evKey u = .error .PreviousVaultNotFull) := by
  intro u hreach
  obtain ⟨i1, i2, i3, i4, i5⟩ := vault_inv_reachable u hreach
  refine ⟨i1, i3, i4, i5, fun hexp bank user uvKey evKey hbank => ?_⟩
  have hver := i2 hexp
  have hne : ¬ u.expansion_vault_1 = none := by
    intro hnone
    rw [hnone] at hexp
    exact Bool.noConfusion hexp
  have hfop : first_open_phase u = some 2 := by
    unfold first_open_phase
    rw [if_neg hne, if_pos i3]
  have hlt : u.token_count < 10 := by omega
  simp [create_expansion_vault, hbank, hver, hfop, required_tokens_for_phase, hlt]

/-- Extract the Ok vault of a handler run (used to name concrete run results). -/
def okOrU (r : Except BankError UserVault) (d : UserVault) : UserVault :=
  match r with
  | .ok v => v
  | .error _ => d

def wVault1 : UserVault :=
  okOrU (deposit_token cBank 10 11 100000000 (-8) 200000000 emptyUserVault) emptyUserVault

def wVault2 : UserVault :=
  okOrU (deposit_token cBank 10 12 100000000 (-8) 200000000 wVault1) wVault1

def wVault3 : UserVault :=
  okOrU (deposit_token cBank 10 13 100000000 (-8) 200000000 wVault2) wVault2

def wVault4 : UserVault :=
  okOrU (deposit_token cBank 10 14 100000000 (-8) 200000000 wVault3) wVault3

def wVault5 : UserVault :=
  okOrU (deposit_token cBank 10 15 100000000 (-8) 200000000 wVault4) wVault4

def wVault6 : UserVault :=
  match create_expansion_vault cBank 10 100 200 wVault5 with
  | .ok p => p.1
  | .error _ => wVault5

def wExpVault : ExpansionVault :=
  match create_expansion_vault cBank 10 100 200 wVault5 with
  | .ok p => p.2
  | .error _ => emptyExpansionVault

/-- A vault that has held 5 distinct asset keys and freed them all: the slots
are unused but balance_count is still 5. -/
def uvFreeFive : UserVault :=
  { emptyUserVault with balance_count := 5, version := 1 }

theorem claim_C9_witness :
    emptyUserVault.balance_count ≤ wVault1.balance_count ∧
    deposit_token cBank 10 21 100000000 (-8) 200000000 uvFreeFive
      = .error .TooManyBalances :=
  ⟨(claim_C9_balance_count_monotone emptyUserVault wVault1
      (Relation.ReflTransGen.single
        (VStep.dep_tok cBank 10 11 100000000 (-8) 200000000 emptyUserVault wVault1
          (by decide)))).1,
   (claim_C9_balance_count_monotone uvFreeFive uvFreeFive Relation.ReflTransGen.refl).2
     cBank 10 21 100000000 (-8) 200000000 100000000 (by decide) (by decide) (by decide)
     (by decide) (by decide)⟩

theorem claim_C10_witness :
    wVault6.token_count ≤ 5 ∧
    create_expansion_vault cBank 10 100 201 wVault6 = .error .PreviousVaultNotFull := by
  have h1 : VStep emptyUserVault wVault1 :=
    VStep.dep_tok cBank 10 11 100000000 (-8) 200000000 emptyUserVault wVault1 (by decide)
  have h2 : VStep wVault1 wVault2 :=
    VStep.dep_tok cBank 10 12 100000000 (-8) 200000000 wVault1 wVault2 (by decide)
  have h3 : VStep wVault2 wVault3 :=
    VStep.dep_tok cBank 10 13 100000000 (-8) 200000000 wVault2 wVault3 (by decide)
  have h4 : VStep wVault3 wVault4 :=
    VStep.dep_tok cBank 10 14 100000000 (-8) 200000000 wVault3 wVault4 (by decide)
  have h5 : VStep wVault4 wVault5 :=
    VStep.dep_tok cBank 10 15 100000000 (-8) 200000000 wVault4 wVault5 (by decide)
  have h6 : VStep wVault5 wVault6 :=
    VStep.expand cBank 10 100 200 wVault5 wVault6 wExpVault (by decide)
  have hreach : ReachableVault wVault6 :=
    Relation.ReflTransGen.tail
      (Relation.ReflTransGen.tail
        (Relation.ReflTransGen.tail
          (Relation.ReflTransGen.tail
            (Relation.ReflTransGen.tail (Relation.ReflTransGen.single h1) h2) h3) h4) h5) h6
  obtain ⟨j1, -, -, -, j5⟩ := claim_C10_phase2_unreachable wVault6 hreach
  exact ⟨j1, j5 (by decide) cBank 10 100 201 (by decide)⟩

/-- Boolean success test of a handler outcome. -/
def except_is_ok {α : Type} (r : Except BankError α) : Bool :=
  match r with
  | .ok _ => true
  | .error _ => false

theorem balanceOf_congr (u u' : UserVault) (key : VKey)
    (hk : u'.balance_keys = u.balance_keys) (hv : u'.balance_values = u.balance_values)
    (hu : u'.balance_used = u.balance_used) : balanceOf u' key = balanceOf u key := by
  unfold balanceOf
  rw [hk, hv, hu]

/-- The debit block rejects with InsufficientBalance exactly as the source
does: the read balance (0 when the key has no used slot) is below amount. -/
theorem debit_vault_insufficient (uv : UserVault) (key : VKey) (amount : Nat)
    (h : balanceOf uv key < amount) :
    debit_vault uv key amount = .error .InsufficientBalance := by
  unfold balanceOf at h
  unfold debit_vault
  simp only [h, if_true]

theorem withdraw_sol_insufficient_err (bank : Bank) (user : Pubkey) (now : Int)
    (amount : Nat) (uv : UserVault)
    (hbal : balanceOf uv (generate_vault_key user SOL_TOKEN (generate_user_salt bank.salt user))
            < amount) :
    ∃ e, withdraw_sol bank user now amount uv = .error e := by
  unfold withdraw_sol
  dsimp only
  split
  · exact ⟨_, rfl⟩
  split
  · exact ⟨_, rfl⟩
  split
  · exact ⟨_, rfl⟩
  rename_i uvA hA
  obtain ⟨hk, hv, hu, -⟩ := anti_spam_ok_fields now uv uvA hA
  have hbalA : balanceOf uvA
      (generate_vault_key user SOL_TOKEN (generate_user_salt bank.salt user)) < amount := by
    rw [balanceOf_congr uv uvA _ hk hv hu]
    exact hbal
  rw [debit_vault_insufficient _ _ _ hbalA]
  exact ⟨_, rfl⟩

/-- C4.  A debit of more than the read balance never succeeds and commits no
mutation — the handler errors and the transaction aborts, so even the anti-spam
counters bumped in memory are not persisted; on the path where the version
gates and the rate-limit guard pass, the error is exactly InsufficientBalance.
The second block states the same for withdraw_token (which has no rate-limit
guard in its path at all). -/
theorem claim_C4_insufficient_debit_rejected :
    ∀ (bank : Bank) (user : Pubkey) (now : Int) (amount : Nat) (uv : UserVault),
    (balanceOf uv (generate_vault_key user SOL_TOKEN (generate_user_salt bank.salt user))
       < amount →
      except_is_ok (withdraw_sol bank user now amount uv) = false ∧
      committed uv (withdraw_sol bank user now amount uv) = uv ∧
      (bank.version = 1 → uv.version = 1 →
        ∀ uvA, check_and_update_anti_spam now uv = .ok uvA →
          withdraw_sol bank user now amount uv = .error .InsufficientBalance)) ∧
    (∀ token : Pubkey,
      balanceOf uv (generate_vault_key user token (generate_user_salt bank.salt user))
        < amount →
      bank.version = 1 → uv.version = 1 →
      withdraw_token bank user token amount uv = .error .InsufficientBalance ∧
      committed uv (withdraw_token bank user token amount uv) = uv) := by
  intro bank user now amount uv
  constructor
  · intro hbal
    obtain ⟨e, he⟩ := withdraw_sol_insufficient_err bank user now amount uv hbal
    refine ⟨by rw [he] ; rfl, by rw [he] ; rfl, fun hbank hver uvA hA => ?_⟩
    obtain ⟨hk, hv, hu, -⟩ := anti_spam_ok_fields now uv uvA hA
    have hbalA : balanceOf uvA
        (generate_vault_key user SOL_TOKEN (generate_user_salt bank.salt user)) < amount := by
      rw [balanceOf_congr uv uvA _ hk hv hu]
      exact hbal
    have hdeb := debit_vault_insufficient _ _ _ hbalA
    simp [withdraw_sol, hbank, hver, hA, hdeb]
  · intro token hbal hbank hver
    have hdeb := debit_vault_insufficient uv
      (generate_vault_key user token (generate_user_salt bank.salt user)) amount hbal
    constructor
    · simp [withdraw_token, hbank, hver, hdeb]
    · have : withdraw_token bank user token amount uv = .error .InsufficientBalance := by
        simp [withdraw_token, hbank, hver, hdeb]
      rw [this]
      rfl

theorem claim_C4_witness :
    except_is_ok (withdraw_sol cBank 10 1000 5 uvFreeFive) = false ∧
    committed uvFreeFive (withdraw_sol cBank 10 1000 5 uvFreeFive) = uvFreeFive ∧
    withdraw_sol cBank 10 1000 5 uvFreeFive = .error .InsufficientBalance ∧
    withdraw_token cBank 10 21 5 uvFreeFive = .error .InsufficientBalance := by
  obtain ⟨A, B⟩ := claim_C4_insufficient_debit_rejected cBank 10 1000 5 uvFreeFive
  obtain ⟨a1, a2, a3⟩ := A (by decide)
  refine ⟨a1, a2, a3 (by decide) (by decide)
    (okOrU (check_and_update_anti_spam 1000 uvFreeFive) uvFreeFive) (by decide), ?_⟩
  exact (B 21 (by decide) (by decide) (by decide)).1

/-- C5 (amended).  Expansion gating as the code implements it.  For the phase q
the handler would create (the first free link slot) with requirement req
(5/10/15/20 for q = 1..4): the handler consults ONLY the starter record's
token_count counter — never the count of actually tracked assets and never any
expansion record — failing PreviousVaultNotFull when the counter is below req;
a successful call requires counter >= req, creates the phase-q record and sets
the starter's total_capacity to 5 + 5q and phase to q; once all four links
exist the call fails AllExpansionsCreated.  (The counter can exceed the real
tracked-asset count, see the C5 counterexample below.) -/
theorem claim_C5_expansion_gating :
    ∀ (bank : Bank) (user uvKey evKey : Pubkey) (uv : UserVault),
    (∀ q req, first_open_phase uv = some q → required_tokens_for_phase q = some req →
      ((bank.version = 1 → uv.version = 1 → uv.token_count < req →
          create_expansion_vault bank user uvKey evKey uv
            = .error .PreviousVaultNotFull) ∧
       (∀ uv' ev, create_expansion_vault bank user uvKey evKey uv = .ok (uv', ev) →
          ev.vault_phase = q ∧ req ≤ uv.token_count ∧
          uv'.total_capacity = 5 + q * 5 ∧ uv'.current_phase = q))) ∧
    (first_open_phase uv = none → bank.version = 1 → uv.version = 1 →
      create_expansion_vault bank user uvKey evKey uv = .error .AllExpansionsCreated) := by
  intro bank user uvKey evKey uv
  constructor
  · intro q req hq hreq
    constructor
    · intro hbank hver htc
      simp [create_expansion_vault, hbank, hver, hq, hreq, htc]
    · intro uv' ev h
      simp only [create_expansion_vault, hq, hreq] at h
      repeat' split at h
      all_goals try exact Except.noConfusion h
      all_goals
        (injection h with h ; rw [Prod.mk.injEq] at h ; obtain ⟨h1, h2⟩ := h ;
         subst h1 ; subst h2)
      all_goals rename_i hbank hver hcount hphase
      all_goals exact ⟨rfl, by omega, rfl, rfl⟩
  · intro hnone hbank hver
    simp [create_expansion_vault, hbank, hver, hnone]

/-- Starter vault whose token_count counter reads 3 (below the phase-1
requirement of 5). -/
def uvTokens3 : UserVault :=
  { emptyUserVault with token_count := 3, version := 1 }

/-- Starter vault whose four expansion links all exist. -/
def uvAllExpansions : UserVault :=
  { emptyUserVault with
    version := 1
    token_count := 5
    expansion_vault_1 := some 201
    expansion_vault_2 := some 202
    expansion_vault_3 := some 203
    expansion_vault_4 := some 204 }

theorem claim_C5_witness :
    create_expansion_vault cBank 10 100 200 uvTokens3 = .error .PreviousVaultNotFull ∧
    (wExpVault.vault_phase = 1 ∧ 5 ≤ wVault5.token_count ∧
     wVault6.total_capacity = 5 + 1 * 5 ∧ wVault6.current_phase = 1) ∧
    create_expansion_vault cBank 10 100 200 uvAllExpansions
      = .error .AllExpansionsCreated :=
  ⟨((claim_C5_expansion_gating cBank 10 100 200 uvTokens3).1 1 5 (by decide)
      (by decide)).1 (by decide) (by decide) (by decide),
   ((claim_C5_expansion_gating cBank 10 100 200 wVault5).1 1 5 (by decide)
      (by decide)).2 wVault6 wExpVault (by decide),
   (claim_C5_expansion_gating cBank 10 100 200 uvAllExpansions).2 (by decide)
     (by decide) (by decide)⟩

/-- The reachable vault after the five deposits of tokens 11..15 followed by a
full withdrawal of token 15: withdraw_token's zero-balance cleanup clears the
tracking slot WITHOUT decrementing token_count (lib.rs withdraw_token), so only
4 assets remain tracked while the counter still reads 5. -/
def wVault7 : UserVault :=
  okOrU (withdraw_token cBank 10 15 200000000 wVault5) wVault5

/-- C5 counterexample.  The original claim says an expansion record is created
only when the count of tracked assets across the starter record and all
existing expansion records is at least the phase requirement (5 for phase 1,
failing PreviousVaultNotFull below it).  wVault7 is reachable from a fresh
vault (five deposits, one full withdrawal), has no expansion records, and
tracks only 4 distinct assets — below the phase-1 requirement — yet
create_expansion_vault succeeds, because the handler gates on the
never-decremented token_count counter, which still reads 5. -/
theorem claim_C5_expansion_despite_untracked_asset :
    ReachableVault wVault7 ∧
    assets_tracked_count wVault7 [] = 4 ∧
    wVault7.token_count = 5 ∧
    except_is_ok (create_expansion_vault cBank 10 100 200 wVault7) = true := by
  refine ⟨?_, by decide, by decide, by decide⟩
  have h1 : VStep emptyUserVault wVault1 :=
    VStep.dep_tok cBank 10 11 100000000 (-8) 200000000 emptyUserVault wVault1 (by decide)
  have h2 : VStep wVault1 wVault2 :=
    VStep.dep_tok cBank 10 12 100000000 (-8) 200000000 wVault1 wVault2 (by decide)
  have h3 : VStep wVault2 wVault3 :=
    VStep.dep_tok cBank 10 13 100000000 (-8) 200000000 wVault2 wVault3 (by decide)
  have h4 : VStep wVault3 wVault4 :=
    VStep.dep_tok cBank 10 14 100000000 (-8) 200000000 wVault3 wVault4 (by decide)
  have h5 : VStep wVault4 wVault5 :=
    VStep.dep_tok cBank 10 15 100000000 (-8) 200000000 wVault4 wVault5 (by decide)
  have h6 : VStep wVault5 wVault7 :=
    VStep.wdr_tok cBank 10 15 200000000 wVault5 wVault7 (by decide)
  exact Relation.ReflTransGen.tail
    (Relation.ReflTransGen.tail
      (Relation.ReflTransGen.tail
        (Relation.ReflTransGen.tail
          (Relation.ReflTransGen.tail (Relation.ReflTransGen.single h1) h2) h3) h4) h5) h6

/-- C6 (amended).  Time-locked escrow lifecycle: a claim strictly before
unlock_at never succeeds; at or after unlock_at by the recipient with a
positive escrowed amount (and, for SOL, sufficient vault lamports) the claim
succeeds and sets claimed; any claim on an already-claimed vault fails with
InvalidInput (the source has no dedicated AlreadyClaimed error); funding at or
after unlock_at never succeeds. -/
theorem claim_C6_time_lock_lifecycle :
    ∀ (now now2 : Int) (caller funder : Pubkey)
      (vaultLamports funderLamports amount : Nat) (tv : TimeLockedVault),
    (now < tv.unlock_timestamp →
      except_is_ok (claim_time_locked_vault now caller vaultLamports tv) = false) ∧
    (tv.claimed = false → tv.recipient = caller → tv.unlock_timestamp ≤ now →
      0 < tv.amount → (tv.token = SYSTEM_PROGRAM_ID → tv.amount ≤ vaultLamports) →
      claim_time_locked_vault now caller vaultLamports tv
        = .ok { tv with claimed := true } ∧
      claim_time_locked_vault now2 caller vaultLamports { tv with claimed := true }
        = .error .InvalidInput) ∧
    (tv.claimed = true →
      claim_time_locked_vault now caller vaultLamports tv = .error .InvalidInput) ∧
    (tv.unlock_timestamp ≤ now2 →
      except_is_ok (fund_time_locked_vault now2 funder funderLamports amount tv)
        = false) := by
  intro now now2 caller funder vaultLamports funderLamports amount tv
  refine ⟨?_, ?_, ?_, ?_⟩
  · intro hnow
    unfold claim_time_locked_vault
    repeat' split
    all_goals rfl
  · intro hc hrec hun hamt hsol
    have hnotlt : ¬ now < tv.unlock_timestamp := not_lt.mpr hun
    have hne : ¬ tv.amount = 0 := by omega
    have hno : ¬ (tv.token = SYSTEM_PROGRAM_ID ∧ vaultLamports < tv.amount) := by
      rintro ⟨ht, hl⟩
      have := hsol ht
      omega
    constructor
    · simp [claim_time_locked_vault, hc, hrec, hnotlt, hne, hno]
    · simp [claim_time_locked_vault]
  · intro hc
    simp [claim_time_locked_vault, hc]
  · intro hun
    have hnotlt : ¬ now2 < tv.unlock_timestamp := not_lt.mpr hun
    unfold fund_time_locked_vault
    repeat' split
    all_goals rfl

theorem claim_C6_witness :
    except_is_ok (claim_time_locked_vault 400 2 1000 tvFunded) = false ∧
    claim_time_locked_vault 500 2 1000 tvFunded = .ok { tvFunded with claimed := true } ∧
    claim_time_locked_vault 600 2 1000 { tvFunded with claimed := true }
      = .error .InvalidInput ∧
    except_is_ok (fund_time_locked_vault 600 1 5000 10 tvFunded) = false := by
  obtain ⟨p1, p2, p3, p4⟩ :=
    claim_C6_time_lock_lifecycle 500 600 2 1 1000 5000 10 tvFunded
  obtain ⟨q1, q2⟩ := p2 (by decide) (by decide) (by decide) (by decide) (by decide)
  exact ⟨(claim_C6_time_lock_lifecycle 400 600 2 1 1000 5000 10 tvFunded).1 (by decide),
         q1, q2, p4 (by decide)⟩
